import Mathlib

/-!
Formal model of the EmailNews recurring-task scheduler (scheduler.py,
email_sender.py, config_manager.py), as a shallow embedding in Lean 4.

Python strings are modelled as Lean `String` restricted to their ASCII
behaviour (the inputs the program handles are ASCII); Python `None` and
missing dict keys are modelled with `Option`; Python exceptions are
modelled with an explicit `Except` monad.
-/

namespace EmailNews

/-! ## Python primitive behaviour used by `scheduler._parse_interval` -/

/-- Digit tail of a Python decimal integer literal as accepted by `int()`:
a sequence of ASCII digits in which single underscores may occur between
two digits (`int("1_0") = 10`, `int("1__0")` and `int("1_")` raise).
`acc` is the value of the digits consumed so far. -/
def pyDigitsAux : List Char → Nat → Option Nat
  | [], acc => some acc
  | c :: rest, acc =>
    if c.isDigit then pyDigitsAux rest (acc * 10 + (c.toNat - 48))
    else if c = '_' then
      match rest with
      | [] => none
      | c2 :: rest2 =>
        if c2.isDigit then pyDigitsAux rest2 (acc * 10 + (c2.toNat - 48)) else none
    else none

/-- Digit part of a Python integer literal: it must begin with a digit. -/
def pyDigitsStart : List Char → Option Nat
  | [] => none
  | c :: rest => if c.isDigit then pyDigitsAux rest (c.toNat - 48) else none

/-- Python `int(s)` on a whitespace-free ASCII token (the tokens produced by
`str.split()`): an optional sign followed by a digit part. Returns `none`
where Python raises `ValueError`. -/
def pyInt (s : String) : Option Int :=
  match s.data with
  | [] => none
  | c :: rest =>
    if c = '+' then (pyDigitsStart rest).map (fun n => (n : Int))
    else if c = '-' then (pyDigitsStart rest).map (fun n => -(n : Int))
    else (pyDigitsStart (c :: rest)).map (fun n => (n : Int))

/-- Python `str.split()` (no separator argument) on the character list of a
string: split on runs of whitespace, discarding empty pieces. `cur` holds
the characters of the token currently being read, in reverse. -/
def wsSplitAux : List Char → List Char → List (List Char)
  | [], cur => if cur.isEmpty then [] else [cur.reverse]
  | c :: rest, cur =>
    if c.isWhitespace then
      if cur.isEmpty then wsSplitAux rest [] else cur.reverse :: wsSplitAux rest []
    else wsSplitAux rest (c :: cur)

/-- Python `s.lower().split()` as used in `_parse_interval` (ASCII). -/
def pyLowerSplit (s : String) : List String :=
  (wsSplitAux (s.data.map Char.toLower) []).map (fun l => String.mk l)

/-- Python `s.startswith(pre)` on ASCII strings: `pre` is a prefix of the
character sequence of `s`. -/
def pyStartsWith (s pre : String) : Bool := pre.data.isPrefixOf s.data

/-! ## `scheduler._parse_interval` -/

/-- The four repeat units supported by `_parse_interval`
(`schedule.every(n).minutes` / `.hours` / `.days` / `.weeks`). -/
inductive IntervalUnit
  | minutes
  | hours
  | days
  | weeks
  deriving DecidableEq

/-- The configured `schedule.every(value).unit` object that
`_parse_interval` returns on success, ready for a `.do()` call. -/
structure IntervalSetup where
  value : Nat
  unit : IntervalUnit
  deriving DecidableEq

/-- The `if unit in [...]` / `elif ...` chain of `_parse_interval`
(scheduler.py lines 149-161), applied to the already-lowercased unit token. -/
def unitOfToken (u : String) : Option IntervalUnit :=
  if u = "minute" ∨ u = "minutes" then some .minutes
  else if u = "hour" ∨ u = "hours" then some .hours
  else if u = "day" ∨ u = "days" then some .days
  else if u = "week" ∨ u = "weeks" then some .weeks
  else none

/-- The token-level body of `_parse_interval`: require exactly two tokens;
parse the first as a Python `int` (`ValueError` gives `None`); reject
values `<= 0`; match the unit token. -/
def parseIntervalTokens : List String → Option IntervalSetup
  | [numTok, unitTok] =>
    (match pyInt numTok with
    | none => none
    | some value =>
      if value ≤ 0 then none
      else
        match unitOfToken unitTok with
        | none => none
        | some u => some { value := value.toNat, unit := u })
  | _ => none

/-- `_parse_interval` (scheduler.py lines 120-170): lowercase and split the
input, then apply the token checks; `None` on any failure. -/
def parse_interval (s : String) : Option IntervalSetup :=
  parseIntervalTokens (pyLowerSplit s)

/-- Numeric value denoted by a list of ASCII digit characters. -/
def digitsVal (ds : List Char) : Nat :=
  ds.foldl (fun a c => a * 10 + (c.toNat - 48)) 0

/-! ## `email_sender.EmailSender` -/

/-- The `smtp_config` dict handed to scheduled tasks. Each field is `none`
when the corresponding key is missing from the dict. The port value is kept
as the string accepted by Python `int(...)`; a stored `int` port is its
decimal string here. -/
structure SmtpConfig where
  server : Option String
  port : Option String
  user : Option String
  password : Option String
  useTls : Option Bool
  deriving DecidableEq

/-- An `EmailSender` instance (email_sender.py lines 6-23).
`warnedBothModes` records whether `__init__` printed the
"Both use_ssl and use_tls are True" warning. -/
structure EmailSenderState where
  smtpServer : String
  smtpPort : Nat
  smtpUser : String
  smtpPassword : String
  useTls : Bool
  useSsl : Bool
  warnedBothModes : Bool
  deriving DecidableEq

/-- `EmailSender.__init__`: store the settings; if both `use_ssl` and
`use_tls` are set, warn and disable STARTTLS (`self.use_tls = False`),
keeping direct SSL. -/
def emailSenderInit (server : String) (port : Nat) (user password : String)
    (useTls useSsl : Bool) : EmailSenderState :=
  if useSsl ∧ useTls then
    { smtpServer := server, smtpPort := port, smtpUser := user,
      smtpPassword := password, useTls := false, useSsl := useSsl,
      warnedBothModes := true }
  else
    { smtpServer := server, smtpPort := port, smtpUser := user,
      smtpPassword := password, useTls := useTls, useSsl := useSsl,
      warnedBothModes := false }

/-- One `smtplib` interaction performed by `EmailSender.send_email`. -/
inductive SmtpAction
  | connectSsl (server : String) (port : Nat)
  | connectPlain (server : String) (port : Nat)
  | doStartTls
  | login (user : String)
  | sendMail (fromAddr toAddr subject : String)
  deriving DecidableEq

/-- `EmailSender.send_email` (email_sender.py lines 25-108), with the SMTP
network traffic abstracted to the sequence of `smtplib` calls it issues on
the successful path. Returns `(result, transcript)`. Note the source opens
a first throwaway connection (lines 59-67) and then a second one inside the
`with` block (lines 78-91); both appear in the transcript. -/
def send_email (s : EmailSenderState) (toEmail subject bodyHtml : String)
    (bodyText : Option String) : Bool × List SmtpAction :=
  if s.smtpServer = "" ∨ s.smtpPort = 0 ∨ s.smtpUser = "" ∨ s.smtpPassword = "" then
    (false, [])
  else if bodyHtml = "" ∧ bodyText.getD "" = "" then
    (false, [])
  else
    let firstConn : List SmtpAction :=
      if s.useSsl then [SmtpAction.connectSsl s.smtpServer s.smtpPort]
      else SmtpAction.connectPlain s.smtpServer s.smtpPort ::
        (if s.useTls then [SmtpAction.doStartTls] else [])
    let session : List SmtpAction :=
      if s.useSsl then
        [SmtpAction.connectSsl s.smtpServer s.smtpPort,
         SmtpAction.login s.smtpUser,
         SmtpAction.sendMail s.smtpUser toEmail subject]
      else
        SmtpAction.connectPlain s.smtpServer s.smtpPort ::
          ((if s.useTls then [SmtpAction.doStartTls] else []) ++
           [SmtpAction.login s.smtpUser,
            SmtpAction.sendMail s.smtpUser toEmail subject])
    (true, firstConn ++ session)

/-! ## Python exceptions and the task executor
(`scheduler._task_execution_function`) -/

/-- The exception kinds the executor distinguishes. All of them are
subclasses of `Exception`, hence caught by a bare `except Exception`. -/
inductive PyExc
  | importErr
  | keyErr (key : String)
  | valueErr (msg : String)
  | exc (msg : String)
  deriving DecidableEq

/-- `str(e)` for a modelled exception. -/
def excText : PyExc → String
  | .importErr => "ImportError"
  | .keyErr k => k
  | .valueErr m => m
  | .exc m => m

/-- `d[key]` on an optional dict entry: `KeyError` when missing. -/
def pyGetItem {α : Type} (v : Option α) (key : String) : Except PyExc α :=
  match v with
  | some a => Except.ok a
  | none => Except.error (PyExc.keyErr key)

/-- Python `int(s)` in exception-raising form (`ValueError` on failure). -/
def pyIntExc (s : String) : Except PyExc Int :=
  match pyInt s with
  | some n => Except.ok n
  | none => Except.error (PyExc.valueErr s)

/-- A `try: body except Exception: handler` block: every modelled
exception is caught and passed to the handler. -/
def pyCaught {α : Type} (body : Except PyExc α) (handler : PyExc → Except PyExc α) :
    Except PyExc α :=
  match body with
  | Except.ok a => Except.ok a
  | Except.error e => handler e

/-- Invoke a collaborator and record the invocation: the call itself has
happened once control reaches it, so it is part of the outcome whether the
collaborator returns a flag or raises (a raise is caught by the enclosing
section handler, leaving the success flag `False`). -/
def recordCall {α : Type} (call : α) (res : Except PyExc Bool) :
    Except PyExc (Option α × Bool) :=
  match res with
  | Except.ok flag => pure (some call, flag)
  | Except.error _e => pure (some call, false)

/-- The email invocation the executor hands to
`EmailSender.send_email(email_to, subject, body_html, body_text)`. -/
structure EmailCall where
  toAddr : String
  subject : String
  bodyHtml : String
  bodyText : String
  deriving DecidableEq

/-- The persistence invocation
`config_manager.update_task_last_run_details(task_id, response, time)`. -/
structure PersistCall where
  taskId : String
  response : String
  timeIso : String
  deriving DecidableEq

/-- What one task execution did: the scheduler's view after
`_task_execution_function` returns. -/
structure ExecOutcome where
  geminiOk : Bool
  response : String
  emailCall : Option EmailCall
  emailSent : Bool
  persistCall : Option PersistCall
  persistOk : Bool
  deriving DecidableEq

/-- Behaviour of the external collaborators during one execution: each may
return normally or raise. `geminiInit` takes the api key
(`GeminiClient(api_key=...)`), `geminiResponse` the prompt and the
search-internet flag. -/
structure ExecEnv where
  geminiInit : String → Except PyExc Unit
  geminiResponse : String → Bool → Except PyExc String
  sendEmail : EmailCall → Except PyExc Bool
  persist : PersistCall → Except PyExc Bool
  importConfigManager : Except PyExc Unit

/-- The Gemini section of `_task_execution_function` (scheduler.py lines
27-55 up to the success test): build the client, request a response, treat
an empty response or one starting with "Error:" as failure; any exception
is caught and turned into an error-string response. Returns
`(gemini_interaction_successful, response)`. -/
def gemini_step (prompt : String) (searchInternet : Bool) (apiKey : String)
    (env : ExecEnv) : Except PyExc (Bool × String) :=
  pyCaught
    (do
      let _ ← env.geminiInit apiKey
      let response ← env.geminiResponse prompt searchInternet
      if response ≠ "" ∧ ¬pyStartsWith response "Error:" then
        pure (true, response)
      else
        pure (false, response))
    (fun e =>
      pure (false, "Error: Exception occurred while contacting Gemini: " ++ excText e))

/-- The email section of `_task_execution_function` (scheduler.py lines
57-95): skip when no recipient or when the smtp config lacks a truthy
`server` or `user`; otherwise build an `EmailSender` (evaluating
`int(smtp_config["port"])` and the other dict lookups, whose `KeyError` /
`ValueError` are caught by the section's handlers), compose the message
with an error-alert subject when the Gemini step failed, and send. Returns
`(invocation of send_email if reached, email_sent_successfully)`. The
`try` block body (lines 64-87) is `email_try_block`: it evaluates the
`EmailSender` constructor arguments (the dict lookups and
`int(smtp_config["port"])` may raise), builds the sender, composes the
subject and both bodies, and calls `send_email`. -/
def email_try_block (taskId prompt : String) (geminiOk : Bool)
    (response emailTo : String) (sc : SmtpConfig) (env : ExecEnv) :
    Except PyExc (Option EmailCall × Bool) := do
  let server ← pyGetItem sc.server "server"
  let portStr ← pyGetItem sc.port "port"
  let port ← pyIntExc portStr
  let user ← pyGetItem sc.user "user"
  let password ← pyGetItem sc.password "password"
  let _sender := emailSenderInit server port.toNat user password
    (sc.useTls.getD true) false
  let subjectHead :=
    if geminiOk then "Gemini Task Result" else "Gemini Task Alert - Error"
  let subject := subjectHead ++ ": " ++ prompt.take 30 ++ "..."
  let bodyHtml := "<html><body><h1>" ++ subjectHead ++ "</h1><p><b>Task ID:</b> "
    ++ taskId ++ "</p><p><b>Prompt:</b> " ++ prompt
    ++ "</p><hr><h3>Response:</h3><p>" ++ response.replace "n" "<br>"
    ++ "</p></body></html>"
  let bodyText := subjectHead ++ "\nTask ID: " ++ taskId ++ "\nPrompt: "
    ++ prompt ++ "\n\nResponse:\n" ++ response
  let call : EmailCall :=
    { toAddr := emailTo, subject := subject,
      bodyHtml := bodyHtml, bodyText := bodyText }
  recordCall call (env.sendEmail call)

def email_step (taskId prompt : String) (geminiOk : Bool) (response : String)
    (emailTo : String) (smtp : Option SmtpConfig) (env : ExecEnv) :
    Except PyExc (Option EmailCall × Bool) :=
  if emailTo = "" then pure (none, false)
  else
    match smtp with
    | none => pure (none, false)
    | some sc =>
      if sc.server.getD "" = "" ∨ sc.user.getD "" = "" then pure (none, false)
      else
        pyCaught (email_try_block taskId prompt geminiOk response emailTo sc env)
          (fun _e => pure (none, false))

/-- The persistence section of `_task_execution_function` (scheduler.py
lines 97-115): only when the Gemini part produced any response text, load
the config-manager module and record `(task_id, response, now)`; every
exception is caught. Returns `(invocation if reached, updated ok)`. The
`try` block body (lines 102-110) is `persist_try_block`: it imports the
config manager and records the last-run details. -/
def persist_try_block (taskId response nowIso : String) (env : ExecEnv) :
    Except PyExc (Option PersistCall × Bool) := do
  let _ ← env.importConfigManager
  let call : PersistCall :=
    { taskId := taskId, response := response, timeIso := nowIso }
  recordCall call (env.persist call)

def persist_step (taskId response nowIso : String) (env : ExecEnv) :
    Except PyExc (Option PersistCall × Bool) :=
  if response = "" then pure (none, false)
  else
    pyCaught (persist_try_block taskId response nowIso env)
      (fun _e => pure (none, false))

/-- Line 55 of scheduler.py: when the Gemini interaction failed and left
an empty response, substitute the default error text; otherwise keep the
response. `gr` is the `(gemini_interaction_successful, response)` pair of
the Gemini section. -/
def defaultedResponse (gr : Bool × String) : String :=
  if ¬gr.1 ∧ gr.2 = "" then
    "Error: Unknown issue during Gemini interaction, no response obtained."
  else gr.2

/-- `_task_execution_function` (scheduler.py lines 18-117): the Gemini
step, the default error response when the step failed with an empty
response (line 55), the email step, then the persistence step. The
`Except` result type exposes whether any exception escapes the function:
an escaping exception would be an `Except.error` value. -/
def task_execution_function (taskId prompt : String) (searchInternet : Bool)
    (emailTo apiKey : String) (smtp : Option SmtpConfig) (env : ExecEnv)
    (nowIso : String) : Except PyExc ExecOutcome := do
  let gr ← gemini_step prompt searchInternet apiKey env
  let er ← email_step taskId prompt gr.1 (defaultedResponse gr) emailTo smtp env
  let pr ← persist_step taskId (defaultedResponse gr) nowIso env
  pure { geminiOk := gr.1, response := defaultedResponse gr,
         emailCall := er.1, emailSent := er.2,
         persistCall := pr.1, persistOk := pr.2 }

/-- One job that is due in the current tick, with the collaborator
behaviour its execution will observe. -/
structure PendingJob where
  taskId : String
  prompt : String
  searchInternet : Bool
  emailTo : String
  apiKey : String
  smtp : Option SmtpConfig
  env : ExecEnv
  nowIso : String

/-- `schedule.run_pending()` as driven by `_run_scheduler`: execute every
due job in sequence. An exception escaping any job execution would abort
the remaining jobs of this tick and surface as an `Except.error`. -/
def run_pending : List PendingJob → Except PyExc (List ExecOutcome)
  | [] => pure []
  | j :: rest => do
    let o ← task_execution_function j.taskId j.prompt j.searchInternet j.emailTo
      j.apiKey j.smtp j.env j.nowIso
    let os ← run_pending rest
    pure (o :: os)

/-! ## `scheduler` module state and lifecycle -/

/-- A live job registered with the `schedule` library: the configured
interval, the tag set (`job.tag(task_id)` adds exactly the task id), and
the arguments captured for `_task_execution_function` by `.do(...)`. The
library-internal next-run timestamp is not part of the repository's code
and is not modelled. -/
structure ScheduledJob where
  setup : IntervalSetup
  tags : List String
  prompt : String
  searchInternet : Bool
  emailTo : String
  apiKey : String
  smtp : Option SmtpConfig
  deriving DecidableEq

/-- The module-level state of scheduler.py: `schedule.jobs` (the library's
default scheduler), the mirrored `_jobs` list, `_scheduler_thread`
(`none` = no handle; `some b` = a handle whose `is_alive()` is `b`) and
`_stop_event`. -/
structure SchedulerState where
  scheduleJobs : List ScheduledJob
  internalJobs : List ScheduledJob
  thread : Option Bool
  stopEventSet : Bool
  deriving DecidableEq

/-- `_scheduler_thread and _scheduler_thread.is_alive()`. -/
def isRunning (st : SchedulerState) : Bool := st.thread.getD false

/-- `add_task` (scheduler.py lines 172-196): parse the interval; on
success register a job tagged with the task id (appended both to
`schedule.jobs` by `.do()` and to `_jobs`) and return `True`; on a parse
failure return `False` with the state unchanged. -/
def add_task (st : SchedulerState) (taskId prompt intervalStr : String)
    (searchInternet : Bool) (emailTo apiKey : String) (smtp : Option SmtpConfig) :
    Bool × SchedulerState :=
  match parse_interval intervalStr with
  | some setup =>
    let job : ScheduledJob :=
      { setup := setup, tags := [taskId], prompt := prompt,
        searchInternet := searchInternet, emailTo := emailTo,
        apiKey := apiKey, smtp := smtp }
    (true,
     { st with scheduleJobs := st.scheduleJobs ++ [job],
               internalJobs := st.internalJobs ++ [job] })
  | none => (false, st)

/-- `list_tasks` (scheduler.py lines 205-252), projected to the task ids
it reports: iterate `schedule.jobs`, skip any job with no tags, and report
each job's first tag. The per-entry next-run timestamp and countdown
string are computed from timing state owned by the third-party `schedule`
library and carry no information about which ids are listed; they are not
modelled. -/
def list_tasks (st : SchedulerState) : List String :=
  (st.scheduleJobs.filter (fun j => !j.tags.isEmpty)).map (fun j => j.tags.headD "")

/-- One entry of the `tasks_to_schedule` list handed to
`start_scheduler_thread` (a task dict from the GUI or config; `id`,
`api_key` and `email_to` keys may be missing). -/
structure TaskConfig where
  id : Option String
  prompt : String
  interval : String
  searchInternet : Bool
  apiKey : Option String
  emailTo : Option String
  deriving DecidableEq

/-- `task_config.get("id", f"task_{i+1}")` for the task at position `i`. -/
def resolvedId (i : Nat) (t : TaskConfig) : String :=
  t.id.getD ("task_" ++ toString (i + 1))

/-- The `for i, task_config in enumerate(tasks_to_schedule)` loop of
`start_scheduler_thread` (scheduler.py lines 343-360): resolve the id and
per-task overrides, call `add_task`, ignore its result except for the
failure report it prints. Returns the new state and the ids whose
`add_task` failed. -/
def scheduleTasksFrom (gKey gTo : String) (smtp : Option SmtpConfig) :
    SchedulerState → Nat → List TaskConfig → SchedulerState × List String
  | st, _, [] => (st, [])
  | st, i, t :: rest =>
    let taskId := resolvedId i t
    let res := add_task st taskId t.prompt t.interval t.searchInternet
      (t.emailTo.getD gTo) (t.apiKey.getD gKey) smtp
    let next := scheduleTasksFrom gKey gTo smtp res.2 (i + 1) rest
    (next.1, (if res.1 then [] else [taskId]) ++ next.2)

/-- How `start_scheduler_thread` returned: the "already running" notice,
or a started worker together with the reported rejected task ids. -/
inductive StartReport
  | alreadyRunning
  | started (rejectedIds : List String)
  deriving DecidableEq

/-- `start_scheduler_thread` (scheduler.py lines 321-368): if a live
worker exists, log the notice and return at once; otherwise install a
fresh (unset) stop event, clear both job lists, schedule every task, and
launch one worker thread. -/
def start_scheduler_thread (st : SchedulerState) (tasks : List TaskConfig)
    (globalApiKey globalEmailTo : String) (smtp : Option SmtpConfig) :
    StartReport × SchedulerState :=
  if isRunning st then (StartReport.alreadyRunning, st)
  else
    let cleared : SchedulerState :=
      { scheduleJobs := [], internalJobs := [], thread := st.thread,
        stopEventSet := false }
    let res := scheduleTasksFrom globalApiKey globalEmailTo smtp cleared 0 tasks
    (StartReport.started res.2, { res.1 with thread := some true })

/-- How `stop_scheduler_thread` returned: the "not running" notice, a
clean join, or the "Thread did not stop in time" warning. None of these
is an error; the function always returns normally. -/
inductive StopReport
  | notRunning
  | stoppedCleanly
  | timedOutWarning
  deriving DecidableEq

/-- `stop_scheduler_thread` (scheduler.py lines 370-387): if a live worker
exists, set the stop event, join with a 5 second timeout (`joinTimedOut`
says whether the worker was still alive when the join returned), report a
warning on a timed-out join, then drop the thread handle and clear both
job lists regardless; otherwise log that the scheduler is not running and
change nothing. -/
def stop_scheduler_thread (st : SchedulerState) (joinTimedOut : Bool) :
    StopReport × SchedulerState :=
  if isRunning st then
    ((if joinTimedOut then StopReport.timedOutWarning else StopReport.stoppedCleanly),
     { scheduleJobs := [], internalJobs := [], thread := none, stopEventSet := true })
  else (StopReport.notRunning, st)

/-! ## Spec-side characterizations used in theorem statements -/

/-- Spec-side description for claims about `Start`: the resolved ids of
all tasks in the list, with positional fallback ids, starting at
position `i`. -/
def resolvedIdsFrom (i : Nat) : List TaskConfig → List String
  | [] => []
  | t :: ts => resolvedId i t :: resolvedIdsFrom (i + 1) ts

/-- Spec-side description: the resolved ids of exactly those tasks whose
interval text parses. -/
def scheduledIdsFrom (i : Nat) : List TaskConfig → List String
  | [] => []
  | t :: ts =>
    (if (parse_interval t.interval).isSome then [resolvedId i t] else []) ++
      scheduledIdsFrom (i + 1) ts

/-- Spec-side description: the resolved ids of exactly those tasks whose
interval text fails to parse (the rejected tasks). -/
def rejectedIdsFrom (i : Nat) : List TaskConfig → List String
  | [] => []
  | t :: ts =>
    (if (parse_interval t.interval).isSome then [] else [resolvedId i t]) ++
      rejectedIdsFrom (i + 1) ts

/-! ## `config_manager` -/

/-- One entry of the persisted `scheduled_tasks` list (a task dict; the
`id` key may be missing). -/
structure ConfigTask where
  id : Option String
  prompt : String
  interval : String
  searchInternet : Bool
  enabled : Bool
  lastResponse : String
  lastSentTime : String
  deriving DecidableEq

/-- The persisted application configuration (the content of
`app_config.json` after `load_config`'s migration). -/
structure AppConfig where
  geminiApiKey : String
  recipientEmail : String
  smtpSettings : SmtpConfig
  scheduledTasks : List ConfigTask
  deriving DecidableEq

/-- The `for task in config.get("scheduled_tasks", [])` loop of
`update_task_last_run_details`: update the first task whose `id` equals
`task_id` and stop; report whether one was found. -/
def updateFirstMatching (taskId lastResponse lastSentTimeIso : String) :
    List ConfigTask → Bool × List ConfigTask
  | [] => (false, [])
  | t :: ts =>
    if t.id = some taskId then
      (true, { t with lastResponse := lastResponse,
                      lastSentTime := lastSentTimeIso } :: ts)
    else
      let r := updateFirstMatching taskId lastResponse lastSentTimeIso ts
      (r.1, t :: r.2)

/-- `update_task_last_run_details` (config_manager.py lines 157-183). The
file I/O is modelled by explicit state passing: `stored` is the
configuration currently in the file (what `load_config` returns) and
`saveOk` is whether the `save_config` write would succeed. Returns
`(result, configuration in the file afterwards, whether save_config was
called)`. -/
def update_task_last_run_details (stored : AppConfig) (saveOk : Bool)
    (taskId lastResponse lastSentTimeIso : String) : Bool × AppConfig × Bool :=
  let r := updateFirstMatching taskId lastResponse lastSentTimeIso
    stored.scheduledTasks
  if r.1 then
    (saveOk, (if saveOk then { stored with scheduledTasks := r.2 } else stored), true)
  else
    (false, stored, false)

end EmailNews

namespace EmailNews

/-! ## Facts about ASCII digit characters -/

theorem toLower_eq_self_of_isDigit (c : Char) (h : c.isDigit = true) :
    c.toLower = c := by
  simp [Char.isDigit] at h
  have h3 : c.toNat ≤ 57 := h.2
  unfold Char.toLower
  rw [if_neg]
  intro hx
  omega

theorem isWhitespace_eq_false_of_isDigit (c : Char) (h : c.isDigit = true) :
    c.isWhitespace = false := by
  simp [Char.isDigit] at h
  have h1 : 48 ≤ c.toNat := h.1
  have hne : ∀ x : Char, x.toNat < 48 → ¬c = x := by
    intro x hx hcx; subst hcx; omega
  simp [Char.isWhitespace]
  and_intros <;> exact hne _ (by decide)

theorem ne_plus_of_isDigit (c : Char) (h : c.isDigit = true) : c ≠ '+' := by
  intro hc; subst hc; exact absurd h (by decide)

theorem ne_minus_of_isDigit (c : Char) (h : c.isDigit = true) : c ≠ '-' := by
  intro hc; subst hc; exact absurd h (by decide)

/-! ## Behaviour of the embedded Python primitives on classified inputs -/

theorem pyDigitsAux_all_digits (ds : List Char) :
    ∀ acc, (∀ c ∈ ds, c.isDigit = true) →
      pyDigitsAux ds acc = some (ds.foldl (fun a c => a * 10 + (c.toNat - 48)) acc) := by
  induction ds with
  | nil => intro acc _; simp [pyDigitsAux]
  | cons c rest ih =>
    intro acc h
    have hc : c.isDigit = true := h c (by simp)
    rw [pyDigitsAux.eq_def]
    simp only [hc, if_true, List.foldl_cons]
    exact ih _ (fun d hd => h d (by simp [hd]))

theorem pyInt_digits (ds : List Char) (hne : ds ≠ [])
    (h : ∀ c ∈ ds, c.isDigit = true) :
    pyInt (String.mk ds) = some ((digitsVal ds : Nat) : Int) := by
  cases ds with
  | nil => exact absurd rfl hne
  | cons c rest =>
    have hc : c.isDigit = true := h c (by simp)
    have hplus := ne_plus_of_isDigit c hc
    have hminus := ne_minus_of_isDigit c hc
    simp only [pyInt, hplus, hminus, if_false, pyDigitsStart, hc, if_true]
    rw [pyDigitsAux_all_digits rest _ (fun d hd => h d (by simp [hd]))]
    simp [digitsVal]

theorem pyInt_minus_digits (es : List Char) (hne : es ≠ [])
    (h : ∀ c ∈ es, c.isDigit = true) :
    pyInt (String.mk ('-' :: es)) = some (-(digitsVal es : Int)) := by
  cases es with
  | nil => exact absurd rfl hne
  | cons c rest =>
    have hc : c.isDigit = true := h c (by simp)
    simp only [pyInt, pyDigitsStart, hc, if_true]
    rw [pyDigitsAux_all_digits rest _ (fun d hd => h d (by simp [hd]))]
    simp [digitsVal]

theorem wsSplitAux_append_noWs (xs : List Char)
    (hx : ∀ c ∈ xs, c.isWhitespace = false) :
    ∀ tail cur, wsSplitAux (xs ++ tail) cur = wsSplitAux tail (xs.reverse ++ cur) := by
  induction xs with
  | nil => intro tail cur; simp
  | cons c rest ih =>
    intro tail cur
    have hc : c.isWhitespace = false := hx c (by simp)
    rw [List.cons_append, wsSplitAux.eq_def]
    simp only [hc, Bool.false_eq_true, if_false]
    rw [ih (fun d hd => hx d (by simp [hd])) tail (c :: cur)]
    congr 1
    simp

theorem wsSplitAux_space (ys : List Char) (cur : List Char) (hcur : cur ≠ []) :
    wsSplitAux (' ' :: ys) cur = cur.reverse :: wsSplitAux ys [] := by
  rw [wsSplitAux.eq_def]
  simp [List.isEmpty_iff, hcur]

theorem wsSplitAux_nil_of_ne (cur : List Char) (hcur : cur ≠ []) :
    wsSplitAux [] cur = [cur.reverse] := by
  rw [wsSplitAux.eq_def]
  simp [List.isEmpty_iff, hcur]

/-- Splitting `"<tok1> <tok2>"` where neither token contains whitespace
after lowercasing: exactly the two lowered tokens. -/
theorem pyLowerSplit_pair (ts us : List Char)
    (ht : ts ≠ []) (hu : us ≠ [])
    (htw : ∀ c ∈ ts, (Char.toLower c).isWhitespace = false)
    (huw : ∀ c ∈ us, (Char.toLower c).isWhitespace = false) :
    pyLowerSplit (String.mk (ts ++ ' ' :: us)) =
      [String.mk (ts.map Char.toLower), String.mk (us.map Char.toLower)] := by
  unfold pyLowerSplit
  have hdata : (String.mk (ts ++ ' ' :: us)).data = ts ++ ' ' :: us := rfl
  rw [hdata, List.map_append, List.map_cons]
  have hlow : Char.toLower ' ' = ' ' := by decide
  rw [hlow]
  have htw2 : ∀ c ∈ ts.map Char.toLower, c.isWhitespace = false := by
    intro c hc
    obtain ⟨d, hd, rfl⟩ := List.mem_map.1 hc
    exact htw d hd
  have huw2 : ∀ c ∈ us.map Char.toLower, c.isWhitespace = false := by
    intro c hc
    obtain ⟨d, hd, rfl⟩ := List.mem_map.1 hc
    exact huw d hd
  rw [wsSplitAux_append_noWs _ htw2 _ []]
  have htne : (ts.map Char.toLower).reverse ≠ [] := by
    simp [ht]
  rw [List.append_nil, wsSplitAux_space _ _ htne, List.reverse_reverse]
  have h2 := wsSplitAux_append_noWs (us.map Char.toLower) huw2 [] []
  rw [List.append_nil] at h2
  rw [h2, List.append_nil, wsSplitAux_nil_of_ne _ (by simp [hu]), List.reverse_reverse]
  simp

theorem unitOfToken_shape (u : String) (iu : IntervalUnit)
    (h : unitOfToken u = some iu) :
    u.data ≠ [] ∧ ∀ c ∈ u.data, c.isWhitespace = false := by
  unfold unitOfToken at h
  split_ifs at h with h1 h2 h3 h4
  · rcases h1 with rfl | rfl <;> exact ⟨by decide, by decide⟩
  · rcases h2 with rfl | rfl <;> exact ⟨by decide, by decide⟩
  · rcases h3 with rfl | rfl <;> exact ⟨by decide, by decide⟩
  · rcases h4 with rfl | rfl <;> exact ⟨by decide, by decide⟩

theorem map_toLower_digits (ds : List Char) (h : ∀ c ∈ ds, c.isDigit = true) :
    ds.map Char.toLower = ds := by
  induction ds with
  | nil => rfl
  | cons c rest ih =>
    rw [List.map_cons, toLower_eq_self_of_isDigit c (h c (by simp)),
      ih (fun d hd => h d (by simp [hd]))]

theorem noWs_toLower_of_digits (ds : List Char) (h : ∀ c ∈ ds, c.isDigit = true) :
    ∀ c ∈ ds, (Char.toLower c).isWhitespace = false := by
  intro c hc
  rw [toLower_eq_self_of_isDigit c (h c hc)]
  exact isWhitespace_eq_false_of_isDigit c (h c hc)

/-! ## `_parse_interval` on classified inputs -/

theorem parse_interval_valid (ds us : List Char) (iu : IntervalUnit)
    (hne : ds ≠ []) (hdig : ∀ c ∈ ds, c.isDigit = true)
    (hpos : 1 ≤ digitsVal ds)
    (hu : unitOfToken (String.mk (us.map Char.toLower)) = some iu) :
    parse_interval (String.mk (ds ++ ' ' :: us)) =
      some { value := digitsVal ds, unit := iu } := by
  obtain ⟨hud, huw⟩ := unitOfToken_shape _ _ hu
  have husne : us ≠ [] := by
    intro h; subst h; exact hud rfl
  have huw2 : ∀ c ∈ us, (Char.toLower c).isWhitespace = false := by
    intro c hc
    exact huw _ (List.mem_map_of_mem _ hc)
  unfold parse_interval
  rw [pyLowerSplit_pair ds us hne husne (noWs_toLower_of_digits ds hdig) huw2]
  rw [map_toLower_digits ds hdig]
  simp only [parseIntervalTokens]
  rw [pyInt_digits ds hne hdig]
  have hle : ¬((digitsVal ds : Int) ≤ 0) := by omega
  simp [hle, hu]

theorem parse_interval_tokens_ne_two (s : String)
    (h : (pyLowerSplit s).length ≠ 2) : parse_interval s = none := by
  unfold parse_interval
  cases hs : pyLowerSplit s with
  | nil => rfl
  | cons a l =>
    cases l with
    | nil => rfl
    | cons b l2 =>
      cases l2 with
      | nil => rw [hs] at h; simp at h
      | cons c l3 => rfl

theorem parse_interval_zero (ds us : List Char)
    (hne : ds ≠ []) (hdig : ∀ c ∈ ds, c.isDigit = true) (hz : digitsVal ds = 0)
    (hu : us ≠ []) (huw : ∀ c ∈ us, (Char.toLower c).isWhitespace = false) :
    parse_interval (String.mk (ds ++ ' ' :: us)) = none := by
  unfold parse_interval
  rw [pyLowerSplit_pair ds us hne hu (noWs_toLower_of_digits ds hdig) huw]
  rw [map_toLower_digits ds hdig]
  simp only [parseIntervalTokens]
  rw [pyInt_digits ds hne hdig, hz]
  simp

theorem parse_interval_negative (es us : List Char)
    (hne : es ≠ []) (hdig : ∀ c ∈ es, c.isDigit = true)
    (hu : us ≠ []) (huw : ∀ c ∈ us, (Char.toLower c).isWhitespace = false) :
    parse_interval (String.mk (('-' :: es) ++ ' ' :: us)) = none := by
  have htw : ∀ c ∈ '-' :: es, (Char.toLower c).isWhitespace = false := by
    intro c hc
    rcases List.mem_cons.1 hc with rfl | hmem
    · decide
    · exact noWs_toLower_of_digits es hdig c hmem
  have hmap : ('-' :: es).map Char.toLower = '-' :: es := by
    rw [List.map_cons, map_toLower_digits es hdig]
    rfl
  unfold parse_interval
  rw [pyLowerSplit_pair _ us (by simp) hu htw huw]
  rw [hmap]
  simp only [parseIntervalTokens]
  rw [pyInt_minus_digits es hne hdig]
  have hle : (-(digitsVal es : Int)) ≤ 0 := by omega
  simp [hle]

theorem parse_interval_badNumber (ts us : List Char)
    (ht : ts ≠ []) (htw : ∀ c ∈ ts, (Char.toLower c).isWhitespace = false)
    (hint : pyInt (String.mk (ts.map Char.toLower)) = none)
    (hu : us ≠ []) (huw : ∀ c ∈ us, (Char.toLower c).isWhitespace = false) :
    parse_interval (String.mk (ts ++ ' ' :: us)) = none := by
  unfold parse_interval
  rw [pyLowerSplit_pair ts us ht hu htw huw]
  simp only [parseIntervalTokens]
  rw [hint]

theorem parse_interval_badUnit (ds us : List Char)
    (hne : ds ≠ []) (hdig : ∀ c ∈ ds, c.isDigit = true)
    (hu : us ≠ []) (huw : ∀ c ∈ us, (Char.toLower c).isWhitespace = false)
    (hunit : unitOfToken (String.mk (us.map Char.toLower)) = none) :
    parse_interval (String.mk (ds ++ ' ' :: us)) = none := by
  unfold parse_interval
  rw [pyLowerSplit_pair ds us hne hu (noWs_toLower_of_digits ds hdig) huw]
  rw [map_toLower_digits ds hdig]
  simp only [parseIntervalTokens]
  rw [pyInt_digits ds hne hdig]
  by_cases hz : (digitsVal ds : Int) ≤ 0
  · simp [hz]
  · simp [hz, hunit]

end EmailNews

namespace EmailNews

/-- C3: for every input text "N unit" where N is a decimal integer with
N >= 1 and the unit word matches one of minute(s), hour(s), day(s),
week(s) case-insensitively, `_parse_interval` succeeds and returns the
setup {N, normalizedUnit}; for a token count different from 2, for N = 0,
for a negative N, for a first token that is not a Python integer, and for
an unrecognized unit word, it returns `None`. (The embedding is a pure
function, so the parser has no side effects.) -/
theorem parse_interval_contract :
    (∀ (ds us : List Char) (iu : IntervalUnit),
      ds ≠ [] → (∀ c ∈ ds, c.isDigit = true) → 1 ≤ digitsVal ds →
      unitOfToken (String.mk (us.map Char.toLower)) = some iu →
      parse_interval (String.mk (ds ++ ' ' :: us)) =
        some { value := digitsVal ds, unit := iu })
    ∧ (∀ s : String, (pyLowerSplit s).length ≠ 2 → parse_interval s = none)
    ∧ (∀ ds us : List Char, ds ≠ [] → (∀ c ∈ ds, c.isDigit = true) →
        digitsVal ds = 0 → us ≠ [] →
        (∀ c ∈ us, (Char.toLower c).isWhitespace = false) →
        parse_interval (String.mk (ds ++ ' ' :: us)) = none)
    ∧ (∀ es us : List Char, es ≠ [] → (∀ c ∈ es, c.isDigit = true) → us ≠ [] →
        (∀ c ∈ us, (Char.toLower c).isWhitespace = false) →
        parse_interval (String.mk (('-' :: es) ++ ' ' :: us)) = none)
    ∧ (∀ ts us : List Char, ts ≠ [] →
        (∀ c ∈ ts, (Char.toLower c).isWhitespace = false) →
        pyInt (String.mk (ts.map Char.toLower)) = none → us ≠ [] →
        (∀ c ∈ us, (Char.toLower c).isWhitespace = false) →
        parse_interval (String.mk (ts ++ ' ' :: us)) = none)
    ∧ (∀ ds us : List Char, ds ≠ [] → (∀ c ∈ ds, c.isDigit = true) → us ≠ [] →
        (∀ c ∈ us, (Char.toLower c).isWhitespace = false) →
        unitOfToken (String.mk (us.map Char.toLower)) = none →
        parse_interval (String.mk (ds ++ ' ' :: us)) = none) :=
  ⟨parse_interval_valid, parse_interval_tokens_ne_two, parse_interval_zero,
   parse_interval_negative, parse_interval_badNumber, parse_interval_badUnit⟩

/-- Concrete instances of the C3 contract. -/
theorem parse_interval_contract_witness :
    parse_interval "5 Minutes" = some { value := 5, unit := IntervalUnit.minutes }
    ∧ parse_interval "every blue moon" = none
    ∧ parse_interval "0 hours" = none
    ∧ parse_interval "-3 days" = none
    ∧ parse_interval "1.5 weeks" = none
    ∧ parse_interval "10 seconds" = none := by
  refine ⟨?_, ?_, ?_, ?_, ?_, ?_⟩
  · exact parse_interval_contract.1 ['5'] ['M','i','n','u','t','e','s']
      IntervalUnit.minutes (by decide) (by decide) (by decide) (by decide)
  · exact parse_interval_contract.2.1 "every blue moon" (by decide)
  · exact parse_interval_contract.2.2.1 ['0'] ['h','o','u','r','s']
      (by decide) (by decide) (by decide) (by decide) (by decide)
  · exact parse_interval_contract.2.2.2.1 ['3'] ['d','a','y','s']
      (by decide) (by decide) (by decide) (by decide)
  · exact parse_interval_contract.2.2.2.2.1 ['1','.','5'] ['w','e','e','k','s']
      (by decide) (by decide) (by decide) (by decide) (by decide)
  · exact parse_interval_contract.2.2.2.2.2 ['1','0'] ['s','e','c','o','n','d','s']
      (by decide) (by decide) (by decide) (by decide) (by decide)

end EmailNews

namespace EmailNews

/-! ## Engine lifecycle and job-set lemmas -/

theorem list_tasks_append (a b : List ScheduledJob) (ij : List ScheduledJob)
    (th : Option Bool) (se : Bool) :
    list_tasks { scheduleJobs := a ++ b, internalJobs := ij, thread := th,
                 stopEventSet := se }
      = list_tasks { scheduleJobs := a, internalJobs := ij, thread := th,
                     stopEventSet := se }
        ++ list_tasks { scheduleJobs := b, internalJobs := ij, thread := th,
                        stopEventSet := se } := by
  simp [list_tasks, List.filter_append]

/-- C1 (amended): `add_task` performs no duplicate-id check. If the id
already has a live job and the interval parses, the call returns success,
appends a second job tagged with the same id, and `list_tasks` afterwards
lists that id one more time than before (in particular at least twice). -/
theorem add_task_duplicate_appends (st : SchedulerState)
    (taskId prompt intervalStr : String) (si : Bool) (emailTo apiKey : String)
    (smtp : Option SmtpConfig) (setup : IntervalSetup)
    (hparse : parse_interval intervalStr = some setup)
    (hdup : taskId ∈ list_tasks st) :
    (add_task st taskId prompt intervalStr si emailTo apiKey smtp).1 = true
    ∧ (add_task st taskId prompt intervalStr si emailTo apiKey smtp).2.scheduleJobs
        = st.scheduleJobs ++
          [{ setup := setup, tags := [taskId], prompt := prompt,
             searchInternet := si, emailTo := emailTo, apiKey := apiKey,
             smtp := smtp }]
    ∧ (list_tasks (add_task st taskId prompt intervalStr si emailTo apiKey smtp).2).count taskId
        = (list_tasks st).count taskId + 1
    ∧ 2 ≤ (list_tasks (add_task st taskId prompt intervalStr si emailTo apiKey smtp).2).count taskId := by
  have h1 : (add_task st taskId prompt intervalStr si emailTo apiKey smtp).1 = true := by
    simp [add_task, hparse]
  have h2 : (add_task st taskId prompt intervalStr si emailTo apiKey smtp).2.scheduleJobs
      = st.scheduleJobs ++
        [{ setup := setup, tags := [taskId], prompt := prompt,
           searchInternet := si, emailTo := emailTo, apiKey := apiKey,
           smtp := smtp }] := by
    simp [add_task, hparse]
  have h3 : list_tasks (add_task st taskId prompt intervalStr si emailTo apiKey smtp).2
      = list_tasks st ++ [taskId] := by
    simp [add_task, hparse, list_tasks, List.filter_append]
  have hc : (list_tasks (add_task st taskId prompt intervalStr si emailTo apiKey smtp).2).count taskId
      = (list_tasks st).count taskId + 1 := by
    rw [h3, List.count_append]
    simp
  have hpos : 1 ≤ (list_tasks st).count taskId := List.one_le_count_iff.2 hdup
  exact ⟨h1, h2, hc, by omega⟩

/-- C1 counterexample: starting from a running engine with one live job
tagged "t1", a second `add_task` for "t1" returns success (not a duplicate
error), and `list_tasks` then lists "t1" twice rather than once. -/
theorem add_task_duplicate_counterexample :
    (add_task
      { scheduleJobs := [{ setup := { value := 1, unit := IntervalUnit.minutes },
                           tags := ["t1"], prompt := "p", searchInternet := false,
                           emailTo := "", apiKey := "", smtp := none }],
        internalJobs := [{ setup := { value := 1, unit := IntervalUnit.minutes },
                           tags := ["t1"], prompt := "p", searchInternet := false,
                           emailTo := "", apiKey := "", smtp := none }],
        thread := some true, stopEventSet := false }
      "t1" "p" "1 minute" false "" "" none).1 = true
    ∧ list_tasks (add_task
      { scheduleJobs := [{ setup := { value := 1, unit := IntervalUnit.minutes },
                           tags := ["t1"], prompt := "p", searchInternet := false,
                           emailTo := "", apiKey := "", smtp := none }],
        internalJobs := [{ setup := { value := 1, unit := IntervalUnit.minutes },
                           tags := ["t1"], prompt := "p", searchInternet := false,
                           emailTo := "", apiKey := "", smtp := none }],
        thread := some true, stopEventSet := false }
      "t1" "p" "1 minute" false "" "" none).2 = ["t1", "t1"] := by
  decide

/-- Concrete instance of the amended C1 statement. -/
theorem add_task_duplicate_appends_witness :
    (add_task
      { scheduleJobs := [{ setup := { value := 1, unit := IntervalUnit.minutes },
                           tags := ["t1"], prompt := "p", searchInternet := false,
                           emailTo := "", apiKey := "", smtp := none }],
        internalJobs := [], thread := some true, stopEventSet := false }
      "t1" "q" "2 hours" true "a@b" "k" none).1 = true
    ∧ 2 ≤ (list_tasks (add_task
      { scheduleJobs := [{ setup := { value := 1, unit := IntervalUnit.minutes },
                           tags := ["t1"], prompt := "p", searchInternet := false,
                           emailTo := "", apiKey := "", smtp := none }],
        internalJobs := [], thread := some true, stopEventSet := false }
      "t1" "q" "2 hours" true "a@b" "k" none).2).count "t1" := by
  have h := add_task_duplicate_appends
    { scheduleJobs := [{ setup := { value := 1, unit := IntervalUnit.minutes },
                         tags := ["t1"], prompt := "p", searchInternet := false,
                         emailTo := "", apiKey := "", smtp := none }],
      internalJobs := [], thread := some true, stopEventSet := false }
    "t1" "q" "2 hours" true "a@b" "k" none
    { value := 2, unit := IntervalUnit.hours } (by decide) (by decide)
  exact ⟨h.1, h.2.2.2⟩

/-- C6: calling `start_scheduler_thread` while a live worker exists is a
no-op that logs the "already running" notice: no second worker is created
and the whole module state (in particular the scheduled job set) is
unchanged. -/
theorem start_when_running_noop (st : SchedulerState) (tasks : List TaskConfig)
    (gKey gTo : String) (smtp : Option SmtpConfig)
    (h : isRunning st = true) :
    start_scheduler_thread st tasks gKey gTo smtp = (StartReport.alreadyRunning, st) := by
  simp [start_scheduler_thread, h]

/-- Concrete instance of C6: a duplicate `Start` on a running engine with
one job leaves the job count at one. -/
theorem start_when_running_noop_witness :
    start_scheduler_thread
      { scheduleJobs := [{ setup := { value := 1, unit := IntervalUnit.minutes },
                           tags := ["t1"], prompt := "p", searchInternet := false,
                           emailTo := "", apiKey := "", smtp := none }],
        internalJobs := [], thread := some true, stopEventSet := false }
      [{ id := some "t2", prompt := "q", interval := "1 hour",
         searchInternet := false, apiKey := none, emailTo := none }]
      "" "" none
    = (StartReport.alreadyRunning,
       { scheduleJobs := [{ setup := { value := 1, unit := IntervalUnit.minutes },
                            tags := ["t1"], prompt := "p", searchInternet := false,
                            emailTo := "", apiKey := "", smtp := none }],
         internalJobs := [], thread := some true, stopEventSet := false }) :=
  start_when_running_noop _ _ _ _ _ (by decide)

/-- C7: `stop_scheduler_thread` on a running engine signals the stop
event, drops the thread handle and clears both job lists whether or not
the join timed out, reporting a warning (not an error) on a timed-out
join; on an engine that is not running it is a no-op that reports the
"not running" notice. -/
theorem stop_contract (st : SchedulerState) (joinTimedOut : Bool) :
    (isRunning st = true →
      stop_scheduler_thread st joinTimedOut =
        ((if joinTimedOut then StopReport.timedOutWarning
          else StopReport.stoppedCleanly),
         { scheduleJobs := [], internalJobs := [], thread := none,
           stopEventSet := true }))
    ∧ (isRunning st = false →
      stop_scheduler_thread st joinTimedOut = (StopReport.notRunning, st)) := by
  constructor <;> intro h <;> simp [stop_scheduler_thread, h]

/-- Concrete instances of C7: a timed-out stop still clears the jobs and
drops the handle; a stop on a stopped engine changes nothing. -/
theorem stop_contract_witness :
    stop_scheduler_thread
      { scheduleJobs := [{ setup := { value := 1, unit := IntervalUnit.minutes },
                           tags := ["t1"], prompt := "p", searchInternet := false,
                           emailTo := "", apiKey := "", smtp := none }],
        internalJobs := [], thread := some true, stopEventSet := false } true
      = (StopReport.timedOutWarning,
         { scheduleJobs := [], internalJobs := [], thread := none,
           stopEventSet := true })
    ∧ stop_scheduler_thread
      { scheduleJobs := [], internalJobs := [], thread := none,
        stopEventSet := true } false
      = (StopReport.notRunning,
         { scheduleJobs := [], internalJobs := [], thread := none,
           stopEventSet := true }) := by
  constructor
  · exact (stop_contract _ true).1 (by decide)
  · exact (stop_contract _ false).2 (by decide)

end EmailNews

namespace EmailNews

theorem add_task_fst (st : SchedulerState) (taskId prompt ivl : String)
    (si : Bool) (eto key : String) (smtp : Option SmtpConfig) :
    (add_task st taskId prompt ivl si eto key smtp).1
      = (parse_interval ivl).isSome := by
  cases hp : parse_interval ivl <;> simp [add_task, hp]

theorem add_task_list_tasks (st : SchedulerState) (taskId prompt ivl : String)
    (si : Bool) (eto key : String) (smtp : Option SmtpConfig) :
    list_tasks (add_task st taskId prompt ivl si eto key smtp).2
      = list_tasks st ++
          (if (parse_interval ivl).isSome then [taskId] else []) := by
  cases hp : parse_interval ivl with
  | some setup => simp [add_task, hp, list_tasks, List.filter_append]
  | none => simp [add_task, hp]

theorem list_tasks_set_thread (s : SchedulerState) (b : Option Bool) :
    list_tasks { s with thread := b } = list_tasks s := rfl

theorem scheduleTasksFrom_characterization (gKey gTo : String)
    (smtp : Option SmtpConfig) :
    ∀ (ts : List TaskConfig) (st : SchedulerState) (i : Nat),
      list_tasks (scheduleTasksFrom gKey gTo smtp st i ts).1
        = list_tasks st ++ scheduledIdsFrom i ts
      ∧ (scheduleTasksFrom gKey gTo smtp st i ts).2 = rejectedIdsFrom i ts := by
  intro ts
  induction ts with
  | nil =>
    intro st i
    simp [scheduleTasksFrom, scheduledIdsFrom, rejectedIdsFrom]
  | cons t rest ih =>
    intro st i
    simp only [scheduleTasksFrom]
    obtain ⟨ih1, ih2⟩ := ih (add_task st (resolvedId i t) t.prompt t.interval
      t.searchInternet (t.emailTo.getD gTo) (t.apiKey.getD gKey) smtp).2 (i + 1)
    constructor
    · rw [ih1, add_task_list_tasks, scheduledIdsFrom, List.append_assoc]
    · rw [ih2, rejectedIdsFrom, add_task_fst]

theorem scheduledIdsFrom_append (xs ys : List TaskConfig) :
    ∀ i, scheduledIdsFrom i (xs ++ ys)
      = scheduledIdsFrom i xs ++ scheduledIdsFrom (i + xs.length) ys := by
  induction xs with
  | nil => intro i; simp [scheduledIdsFrom]
  | cons x rest ih =>
    intro i
    rw [List.cons_append, scheduledIdsFrom, scheduledIdsFrom, ih (i + 1)]
    simp [Nat.add_assoc, Nat.add_comm 1 rest.length]

theorem rejectedIdsFrom_append (xs ys : List TaskConfig) :
    ∀ i, rejectedIdsFrom i (xs ++ ys)
      = rejectedIdsFrom i xs ++ rejectedIdsFrom (i + xs.length) ys := by
  induction xs with
  | nil => intro i; simp [rejectedIdsFrom]
  | cons x rest ih =>
    intro i
    rw [List.cons_append, rejectedIdsFrom, rejectedIdsFrom, ih (i + 1)]
    simp [Nat.add_assoc, Nat.add_comm 1 rest.length]

theorem scheduledIdsFrom_all_valid (xs : List TaskConfig)
    (h : ∀ t ∈ xs, (parse_interval t.interval).isSome = true) :
    ∀ i, scheduledIdsFrom i xs = resolvedIdsFrom i xs := by
  induction xs with
  | nil => intro i; rfl
  | cons x rest ih =>
    intro i
    rw [scheduledIdsFrom, resolvedIdsFrom]
    rw [if_pos (h x (by simp)), ih (fun t ht => h t (by simp [ht])) (i + 1)]
    rfl

theorem rejectedIdsFrom_all_valid (xs : List TaskConfig)
    (h : ∀ t ∈ xs, (parse_interval t.interval).isSome = true) :
    ∀ i, rejectedIdsFrom i xs = [] := by
  induction xs with
  | nil => intro i; rfl
  | cons x rest ih =>
    intro i
    rw [rejectedIdsFrom, if_pos (h x (by simp)),
      ih (fun t ht => h t (by simp [ht])) (i + 1)]
    rfl

/-- C8: starting a stopped engine on a task list that contains one task
with a malformed interval among otherwise-valid tasks schedules every
other task and rejects (and reports) only that one: `list_tasks`
afterwards lists exactly the valid tasks' resolved ids, in order, and the
start report names exactly the malformed task. -/
theorem start_skips_only_malformed (st : SchedulerState)
    (pre post : List TaskConfig) (bad : TaskConfig)
    (gKey gTo : String) (smtp : Option SmtpConfig)
    (hidle : isRunning st = false)
    (hbad : parse_interval bad.interval = none)
    (hgood : ∀ t ∈ pre ++ post, (parse_interval t.interval).isSome = true) :
    list_tasks (start_scheduler_thread st (pre ++ bad :: post) gKey gTo smtp).2
      = resolvedIdsFrom 0 pre ++ resolvedIdsFrom (pre.length + 1) post
    ∧ (start_scheduler_thread st (pre ++ bad :: post) gKey gTo smtp).1
      = StartReport.started [resolvedId pre.length bad] := by
  have hgpre : ∀ t ∈ pre, (parse_interval t.interval).isSome = true := by
    intro t ht; exact hgood t (List.mem_append_left _ ht)
  have hgpost : ∀ t ∈ post, (parse_interval t.interval).isSome = true := by
    intro t ht; exact hgood t (List.mem_append_right _ ht)
  obtain ⟨hc1, hc2⟩ := scheduleTasksFrom_characterization gKey gTo smtp
    (pre ++ bad :: post)
    { scheduleJobs := [], internalJobs := [], thread := st.thread,
      stopEventSet := false } 0
  simp only [start_scheduler_thread, hidle, Bool.false_eq_true, if_false]
  constructor
  · rw [list_tasks_set_thread, hc1]
    simp only [list_tasks, List.filter_nil, List.map_nil, List.nil_append]
    rw [scheduledIdsFrom_append pre (bad :: post) 0]
    rw [scheduledIdsFrom_all_valid pre hgpre 0]
    rw [scheduledIdsFrom]
    rw [if_neg (by simp [hbad])]
    rw [scheduledIdsFrom_all_valid post hgpost _]
    simp
  · rw [hc2]
    rw [rejectedIdsFrom_append pre (bad :: post) 0]
    rw [rejectedIdsFrom_all_valid pre hgpre 0]
    rw [rejectedIdsFrom]
    rw [if_neg (by simp [hbad])]
    rw [rejectedIdsFrom_all_valid post hgpost _]
    simp

/-- Concrete instance of C8: tasks a, b, c where b has interval "soon";
`Status` lists exactly a and c, and b is the reported rejection. -/
theorem start_skips_only_malformed_witness :
    list_tasks (start_scheduler_thread
      { scheduleJobs := [], internalJobs := [], thread := none,
        stopEventSet := true }
      [{ id := some "a", prompt := "p1", interval := "1 minute",
         searchInternet := false, apiKey := none, emailTo := none },
       { id := some "b", prompt := "p2", interval := "soon",
         searchInternet := false, apiKey := none, emailTo := none },
       { id := some "c", prompt := "p3", interval := "2 hours",
         searchInternet := true, apiKey := none, emailTo := none }]
      "" "" none).2 = ["a", "c"]
    ∧ (start_scheduler_thread
      { scheduleJobs := [], internalJobs := [], thread := none,
        stopEventSet := true }
      [{ id := some "a", prompt := "p1", interval := "1 minute",
         searchInternet := false, apiKey := none, emailTo := none },
       { id := some "b", prompt := "p2", interval := "soon",
         searchInternet := false, apiKey := none, emailTo := none },
       { id := some "c", prompt := "p3", interval := "2 hours",
         searchInternet := true, apiKey := none, emailTo := none }]
      "" "" none).1 = StartReport.started ["b"] := by
  exact start_skips_only_malformed
    { scheduleJobs := [], internalJobs := [], thread := none,
      stopEventSet := true }
    [{ id := some "a", prompt := "p1", interval := "1 minute",
       searchInternet := false, apiKey := none, emailTo := none }]
    [{ id := some "c", prompt := "p3", interval := "2 hours",
       searchInternet := true, apiKey := none, emailTo := none }]
    { id := some "b", prompt := "p2", interval := "soon",
      searchInternet := false, apiKey := none, emailTo := none }
    "" "" none (by decide) (by decide) (by decide)

end EmailNews

namespace EmailNews

/-! ## Executor containment lemmas -/

theorem except_pure_eq_ok {α : Type} (a : α) :
    (pure a : Except PyExc α) = Except.ok a := rfl

theorem except_bind_ok {α β : Type} (a : α) (f : α → Except PyExc β) :
    (Except.ok a >>= f) = f a := rfl

theorem pyCaught_ok_of_handler {α : Type} (body : Except PyExc α)
    (handler : PyExc → Except PyExc α)
    (h : ∀ e, ∃ a, handler e = Except.ok a) :
    ∃ a, pyCaught body handler = Except.ok a := by
  cases body with
  | ok a => exact ⟨a, rfl⟩
  | error e => exact h e

theorem gemini_step_ok (prompt : String) (si : Bool) (apiKey : String)
    (env : ExecEnv) : ∃ r, gemini_step prompt si apiKey env = Except.ok r := by
  apply pyCaught_ok_of_handler
  intro e
  exact ⟨_, rfl⟩

theorem email_step_ok (taskId prompt : String) (geminiOk : Bool)
    (response emailTo : String) (smtp : Option SmtpConfig) (env : ExecEnv) :
    ∃ r, email_step taskId prompt geminiOk response emailTo smtp env
      = Except.ok r := by
  by_cases h1 : emailTo = ""
  · exact ⟨(none, false), by simp [email_step, h1, except_pure_eq_ok]⟩
  · cases smtp with
    | none => exact ⟨(none, false), by simp [email_step, h1, except_pure_eq_ok]⟩
    | some sc =>
      by_cases h2 : sc.server.getD "" = "" ∨ sc.user.getD "" = ""
      · exact ⟨(none, false), by simp [email_step, h1, h2, except_pure_eq_ok]⟩
      · have hshape : email_step taskId prompt geminiOk response emailTo (some sc) env
            = pyCaught (email_try_block taskId prompt geminiOk response emailTo sc env)
              (fun _e => pure (none, false)) := by
          simp [email_step, h1, h2]
        rw [hshape]
        apply pyCaught_ok_of_handler
        intro e
        exact ⟨_, rfl⟩

theorem persist_step_ok (taskId response nowIso : String) (env : ExecEnv) :
    ∃ r, persist_step taskId response nowIso env = Except.ok r := by
  by_cases h1 : response = ""
  · exact ⟨(none, false), by simp [persist_step, h1, except_pure_eq_ok]⟩
  · have hshape : persist_step taskId response nowIso env
        = pyCaught (persist_try_block taskId response nowIso env)
          (fun _e => pure (none, false)) := by
      simp [persist_step, h1]
    rw [hshape]
    apply pyCaught_ok_of_handler
    intro e
    exact ⟨_, rfl⟩

theorem task_execution_function_ok (taskId prompt : String) (si : Bool)
    (emailTo apiKey : String) (smtp : Option SmtpConfig) (env : ExecEnv)
    (nowIso : String) :
    ∃ o, task_execution_function taskId prompt si emailTo apiKey smtp env nowIso
      = Except.ok o := by
  obtain ⟨gr, hg⟩ := gemini_step_ok prompt si apiKey env
  obtain ⟨er, he⟩ := email_step_ok taskId prompt gr.1 (defaultedResponse gr)
    emailTo smtp env
  obtain ⟨pr, hp⟩ := persist_step_ok taskId (defaultedResponse gr) nowIso env
  refine ⟨{ geminiOk := gr.1, response := defaultedResponse gr,
            emailCall := er.1, emailSent := er.2,
            persistCall := pr.1, persistOk := pr.2 }, ?_⟩
  simp only [task_execution_function, hg, except_bind_ok, he, hp, except_pure_eq_ok]

theorem run_pending_ok (pending : List PendingJob) :
    ∃ outs, run_pending pending = Except.ok outs := by
  induction pending with
  | nil => exact ⟨[], rfl⟩
  | cons j rest ih =>
    obtain ⟨outs, hrest⟩ := ih
    obtain ⟨o, ho⟩ := task_execution_function_ok j.taskId j.prompt j.searchInternet
      j.emailTo j.apiKey j.smtp j.env j.nowIso
    refine ⟨o :: outs, ?_⟩
    simp only [run_pending, ho, except_bind_ok, hrest, except_pure_eq_ok]

/-- C4: one task execution always returns an outcome and never raises to
its caller: for every task, configuration and collaborator behaviour
(including collaborators that raise), `_task_execution_function` yields
`Except.ok`, never `Except.error`; consequently a whole
`schedule.run_pending` pass over the due jobs also returns normally, so
the tick loop proceeds past every job unconditionally. -/
theorem executor_never_raises :
    (∀ (taskId prompt : String) (si : Bool) (emailTo apiKey : String)
       (smtp : Option SmtpConfig) (env : ExecEnv) (nowIso : String),
      ∃ o, task_execution_function taskId prompt si emailTo apiKey smtp env nowIso
        = Except.ok o)
    ∧ (∀ pending : List PendingJob, ∃ outs, run_pending pending = Except.ok outs) :=
  ⟨task_execution_function_ok, run_pending_ok⟩

end EmailNews

namespace EmailNews

theorem pyCaught_eq_of_ok {α : Type} (body : Except PyExc α)
    (handler : PyExc → Except PyExc α) (a : α) (h : body = Except.ok a) :
    pyCaught body handler = Except.ok a := by
  rw [h]; rfl

theorem recordCall_ok {α : Type} (call : α) (res : Except PyExc Bool) :
    ∃ b, recordCall call res = Except.ok (some call, b) := by
  cases res with
  | ok flag => exact ⟨flag, rfl⟩
  | error e => exact ⟨false, rfl⟩

theorem ne_empty_of_startsWith_error (r : String)
    (h : pyStartsWith r "Error:" = true) : r ≠ "" := by
  intro h0
  subst h0
  exact absurd h (by decide)

theorem gemini_step_error_string (prompt : String) (si : Bool) (apiKey : String)
    (env : ExecEnv) (r : String)
    (hgi : env.geminiInit apiKey = Except.ok ())
    (hgr : env.geminiResponse prompt si = Except.ok r)
    (hstart : pyStartsWith r "Error:" = true) :
    gemini_step prompt si apiKey env = Except.ok (false, r) := by
  unfold gemini_step
  apply pyCaught_eq_of_ok
  simp only [hgi, hgr, except_bind_ok]
  simp [hstart, except_pure_eq_ok]

theorem persist_try_block_call (taskId response nowIso : String) (env : ExecEnv)
    (himp : env.importConfigManager = Except.ok ()) :
    ∃ b, persist_try_block taskId response nowIso env
      = Except.ok (some { taskId := taskId, response := response,
                          timeIso := nowIso }, b) := by
  unfold persist_try_block
  simp only [himp, except_bind_ok]
  exact recordCall_ok _ _

theorem persist_step_call (taskId response nowIso : String) (env : ExecEnv)
    (himp : env.importConfigManager = Except.ok ()) (hresp : response ≠ "") :
    ∃ b, persist_step taskId response nowIso env
      = Except.ok (some { taskId := taskId, response := response,
                          timeIso := nowIso }, b) := by
  obtain ⟨b, hb⟩ := persist_try_block_call taskId response nowIso env himp
  refine ⟨b, ?_⟩
  have hshape : persist_step taskId response nowIso env
      = pyCaught (persist_try_block taskId response nowIso env)
        (fun _e => pure (none, false)) := by
    simp [persist_step, hresp]
  rw [hshape]
  exact pyCaught_eq_of_ok _ _ _ hb

theorem email_try_block_call (taskId prompt : String) (geminiOk : Bool)
    (response emailTo : String) (sc : SmtpConfig) (env : ExecEnv)
    (sv po u pw : String) (pn : Int)
    (hsv : sc.server = some sv) (hpo : sc.port = some po)
    (hpn : pyInt po = some pn) (hu : sc.user = some u)
    (hpw : sc.password = some pw) :
    ∃ sent, email_try_block taskId prompt geminiOk response emailTo sc env
      = Except.ok (some
          { toAddr := emailTo,
            subject := (if geminiOk then "Gemini Task Result"
                else "Gemini Task Alert - Error") ++ ": " ++ prompt.take 30 ++ "...",
            bodyHtml := "<html><body><h1>" ++ (if geminiOk then "Gemini Task Result"
                else "Gemini Task Alert - Error") ++ "</h1><p><b>Task ID:</b> "
              ++ taskId ++ "</p><p><b>Prompt:</b> " ++ prompt
              ++ "</p><hr><h3>Response:</h3><p>" ++ response.replace "n" "<br>"
              ++ "</p></body></html>",
            bodyText := (if geminiOk then "Gemini Task Result"
                else "Gemini Task Alert - Error") ++ "\nTask ID: " ++ taskId
              ++ "\nPrompt: " ++ prompt ++ "\n\nResponse:\n" ++ response }, sent) := by
  unfold email_try_block
  simp only [hsv, hpo, hu, hpw, pyGetItem, hpn, pyIntExc, except_bind_ok]
  exact recordCall_ok _ _

end EmailNews

namespace EmailNews

theorem task_execution_function_eq (taskId prompt : String) (si : Bool)
    (emailTo apiKey : String) (smtp : Option SmtpConfig) (env : ExecEnv)
    (nowIso : String) (gr : Bool × String) (er : Option EmailCall × Bool)
    (pr : Option PersistCall × Bool)
    (hg : gemini_step prompt si apiKey env = Except.ok gr)
    (he : email_step taskId prompt gr.1 (defaultedResponse gr) emailTo smtp env
      = Except.ok er)
    (hp : persist_step taskId (defaultedResponse gr) nowIso env = Except.ok pr) :
    task_execution_function taskId prompt si emailTo apiKey smtp env nowIso
      = Except.ok { geminiOk := gr.1, response := defaultedResponse gr,
                    emailCall := er.1, emailSent := er.2,
                    persistCall := pr.1, persistOk := pr.2 } := by
  simp only [task_execution_function, hg, except_bind_ok, he, hp, except_pure_eq_ok]

/-- C5: whenever the Gemini section produced any response text (including
an error string), the persistence collaborator is invoked with
`(task_id, response, now)` regardless of the email step's behaviour; and
when the generation collaborator fails (returns an "Error:" string) while
a recipient and a complete mail config are present, `send_email` is
invoked with the error-alert subject and the persistence collaborator
receives the error text as the recorded response. -/
theorem execution_persists_response :
    (∀ (taskId prompt : String) (si : Bool) (emailTo apiKey : String)
       (smtp : Option SmtpConfig) (env : ExecEnv) (nowIso : String)
       (o : ExecOutcome),
      task_execution_function taskId prompt si emailTo apiKey smtp env nowIso
        = Except.ok o →
      env.importConfigManager = Except.ok () →
      o.response ≠ "" →
      o.persistCall = some { taskId := taskId, response := o.response,
                             timeIso := nowIso })
    ∧ (∀ (taskId prompt : String) (si : Bool) (emailTo apiKey : String)
         (sc : SmtpConfig) (env : ExecEnv) (nowIso : String)
         (sv po u pw r : String) (pn : Int) (o : ExecOutcome),
      env.geminiInit apiKey = Except.ok () →
      env.geminiResponse prompt si = Except.ok r →
      pyStartsWith r "Error:" = true →
      emailTo ≠ "" →
      sc.server = some sv → sv ≠ "" →
      sc.user = some u → u ≠ "" →
      sc.port = some po → pyInt po = some pn →
      sc.password = some pw →
      env.importConfigManager = Except.ok () →
      task_execution_function taskId prompt si emailTo apiKey (some sc) env nowIso
        = Except.ok o →
      (∃ call, o.emailCall = some call
        ∧ call.subject = "Gemini Task Alert - Error" ++ ": " ++ prompt.take 30 ++ "..."
        ∧ call.toAddr = emailTo)
      ∧ o.persistCall = some { taskId := taskId, response := r, timeIso := nowIso }
      ∧ o.response = r) := by
  constructor
  · intro taskId prompt si emailTo apiKey smtp env nowIso o h himp hresp
    obtain ⟨gr, hg⟩ := gemini_step_ok prompt si apiKey env
    obtain ⟨er, he⟩ := email_step_ok taskId prompt gr.1 (defaultedResponse gr)
      emailTo smtp env
    obtain ⟨pr, hp⟩ := persist_step_ok taskId (defaultedResponse gr) nowIso env
    have hrun := task_execution_function_eq taskId prompt si emailTo apiKey smtp
      env nowIso gr er pr hg he hp
    rw [h] at hrun
    injection hrun with ho
    subst ho
    have hresp2 : defaultedResponse gr ≠ "" := hresp
    obtain ⟨b, hpc⟩ := persist_step_call taskId (defaultedResponse gr) nowIso env
      himp hresp2
    rw [hp] at hpc
    injection hpc with hpr
    show pr.1 = _
    rw [hpr]
  · intro taskId prompt si emailTo apiKey sc env nowIso sv po u pw r pn o
      hgi hgr hstart hto hsv hsvne hu hune hpo hpn hpw himp h
    have hrne : r ≠ "" := ne_empty_of_startsWith_error r hstart
    have hg : gemini_step prompt si apiKey env = Except.ok (false, r) :=
      gemini_step_error_string prompt si apiKey env r hgi hgr hstart
    have hdr : defaultedResponse (false, r) = r := by
      simp [defaultedResponse, hrne]
    obtain ⟨er, he⟩ := email_step_ok taskId prompt (false, r).1
      (defaultedResponse (false, r)) emailTo (some sc) env
    obtain ⟨pr, hp⟩ := persist_step_ok taskId (defaultedResponse (false, r))
      nowIso env
    have hrun := task_execution_function_eq taskId prompt si emailTo apiKey
      (some sc) env nowIso (false, r) er pr hg he hp
    rw [h] at hrun
    injection hrun with ho
    subst ho
    have hguard : ¬(sc.server.getD "" = "" ∨ sc.user.getD "" = "") := by
      rw [hsv, hu]
      simp [hsvne, hune]
    have hfst : ((false, r).1 : Bool) = false := rfl
    rw [hfst, hdr] at he
    obtain ⟨sent, hblock⟩ := email_try_block_call taskId prompt false r emailTo
      sc env sv po u pw pn hsv hpo hpn hu hpw
    have hestep : email_step taskId prompt false r emailTo (some sc) env
        = pyCaught (email_try_block taskId prompt false r emailTo sc env)
          (fun _e => pure (none, false)) := by
      simp [email_step, hto, hguard]
    have he2 := pyCaught_eq_of_ok
      (email_try_block taskId prompt false r emailTo sc env)
      (fun _e => pure (none, false)) _ hblock
    rw [← hestep] at he2
    rw [he] at he2
    injection he2 with her
    rw [hdr] at hp
    obtain ⟨b, hpc⟩ := persist_step_call taskId r nowIso env himp hrne
    rw [hp] at hpc
    injection hpc with hpr
    subst her
    subst hpr
    refine ⟨⟨_, rfl, ?_, rfl⟩, rfl, hdr⟩
    rfl

end EmailNews

namespace EmailNews

/-- Concrete instance of C5: a failing generation stub, a recipient and a
complete mail config; the mail call carries the error-alert subject and
the persistence call records the error text. -/
theorem execution_persists_response_witness :
    ∃ o, task_execution_function "t1" "Ask" false "x@y" "k"
        (some { server := some "smtp.example.com", port := some "587",
                user := some "u", password := some "pw", useTls := some true })
        { geminiInit := fun _ => Except.ok (),
          geminiResponse := fun _ _ => Except.ok "Error: boom",
          sendEmail := fun _ => Except.ok true,
          persist := fun _ => Except.ok true,
          importConfigManager := Except.ok () } "t0" = Except.ok o
      ∧ (∃ call, o.emailCall = some call
          ∧ call.subject = "Gemini Task Alert - Error" ++ ": " ++ "Ask".take 30 ++ "..."
          ∧ call.toAddr = "x@y")
      ∧ o.persistCall = some { taskId := "t1", response := "Error: boom",
                               timeIso := "t0" }
      ∧ o.response = "Error: boom" := by
  obtain ⟨o, ho⟩ := task_execution_function_ok "t1" "Ask" false "x@y" "k"
    (some { server := some "smtp.example.com", port := some "587",
            user := some "u", password := some "pw", useTls := some true })
    { geminiInit := fun _ => Except.ok (),
      geminiResponse := fun _ _ => Except.ok "Error: boom",
      sendEmail := fun _ => Except.ok true,
      persist := fun _ => Except.ok true,
      importConfigManager := Except.ok () } "t0"
  have h := execution_persists_response.2 "t1" "Ask" false "x@y" "k"
    { server := some "smtp.example.com", port := some "587",
      user := some "u", password := some "pw", useTls := some true }
    { geminiInit := fun _ => Except.ok (),
      geminiResponse := fun _ _ => Except.ok "Error: boom",
      sendEmail := fun _ => Except.ok true,
      persist := fun _ => Except.ok true,
      importConfigManager := Except.ok () } "t0"
    "smtp.example.com" "587" "u" "pw" "Error: boom" 587 o
    rfl rfl (by decide) (by decide) rfl (by decide) rfl (by decide) rfl
    (by decide) rfl rfl ho
  exact ⟨o, ho, h.1, h.2.1, h.2.2⟩

/-! ## `EmailSender` security-mode priority -/

/-- C9: when both secure transport modes are requested simultaneously
(`use_ssl` and `use_tls` both true), the constructor warns, disables
STARTTLS and keeps direct SSL; the send path then opens only SSL
connections and never issues STARTTLS. -/
theorem emailSender_both_modes_ssl_priority (server : String) (port : Nat)
    (user password toEmail subject bodyHtml bodyText : String)
    (hs : server ≠ "") (hp : port ≠ 0) (hu : user ≠ "") (hw : password ≠ "")
    (hb : bodyHtml ≠ "") :
    (emailSenderInit server port user password true true).useSsl = true
    ∧ (emailSenderInit server port user password true true).useTls = false
    ∧ (emailSenderInit server port user password true true).warnedBothModes = true
    ∧ send_email (emailSenderInit server port user password true true)
        toEmail subject bodyHtml (some bodyText)
      = (true, [SmtpAction.connectSsl server port, SmtpAction.connectSsl server port,
                SmtpAction.login user, SmtpAction.sendMail user toEmail subject])
    ∧ SmtpAction.doStartTls ∉
        (send_email (emailSenderInit server port user password true true)
          toEmail subject bodyHtml (some bodyText)).2 := by
  have hinit : emailSenderInit server port user password true true
      = { smtpServer := server, smtpPort := port, smtpUser := user,
          smtpPassword := password, useTls := false, useSsl := true,
          warnedBothModes := true } := by
    simp [emailSenderInit]
  have hsend : send_email (emailSenderInit server port user password true true)
      toEmail subject bodyHtml (some bodyText)
      = (true, [SmtpAction.connectSsl server port, SmtpAction.connectSsl server port,
                SmtpAction.login user, SmtpAction.sendMail user toEmail subject]) := by
    rw [hinit]
    simp [send_email, hs, hp, hu, hw, hb]
  refine ⟨by rw [hinit], by rw [hinit], by rw [hinit], hsend, ?_⟩
  rw [hsend]
  intro hmem
  simp at hmem

/-- Concrete instance of C9. -/
theorem emailSender_both_modes_ssl_priority_witness :
    (emailSenderInit "smtp.example.com" 465 "u" "pw" true true).useTls = false
    ∧ (emailSenderInit "smtp.example.com" 465 "u" "pw" true true).warnedBothModes = true
    ∧ send_email (emailSenderInit "smtp.example.com" 465 "u" "pw" true true)
        "x@y" "s" "<b>h</b>" (some "t")
      = (true, [SmtpAction.connectSsl "smtp.example.com" 465,
                SmtpAction.connectSsl "smtp.example.com" 465,
                SmtpAction.login "u", SmtpAction.sendMail "u" "x@y" "s"]) := by
  have h := emailSender_both_modes_ssl_priority "smtp.example.com" 465 "u" "pw"
    "x@y" "s" "<b>h</b>" "t" (by decide) (by decide) (by decide) (by decide)
    (by decide)
  exact ⟨h.2.1, h.2.2.1, h.2.2.2.1⟩

/-! ## `config_manager.update_task_last_run_details` -/

theorem updateFirstMatching_not_found (taskId lastResponse lastSentTimeIso : String)
    (ts : List ConfigTask) (h : ∀ t ∈ ts, t.id ≠ some taskId) :
    updateFirstMatching taskId lastResponse lastSentTimeIso ts = (false, ts) := by
  induction ts with
  | nil => rfl
  | cons t rest ih =>
    rw [updateFirstMatching, if_neg (h t (by simp))]
    rw [ih (fun d hd => h d (by simp [hd]))]

/-- C10: when no persisted task has the given id,
`update_task_last_run_details` returns `False`, `save_config` is never
called, and the configuration in the file is unchanged. -/
theorem update_task_last_run_details_not_found (stored : AppConfig)
    (saveOk : Bool) (taskId lastResponse lastSentTimeIso : String)
    (h : ∀ t ∈ stored.scheduledTasks, t.id ≠ some taskId) :
    update_task_last_run_details stored saveOk taskId lastResponse lastSentTimeIso
      = (false, stored, false) := by
  unfold update_task_last_run_details
  rw [updateFirstMatching_not_found taskId lastResponse lastSentTimeIso
    stored.scheduledTasks h]
  simp

/-- Concrete instance of C10. -/
theorem update_task_last_run_details_not_found_witness :
    update_task_last_run_details
      { geminiApiKey := "k", recipientEmail := "r@s",
        smtpSettings := { server := some "s", port := some "587",
                          user := some "u", password := some "p",
                          useTls := some true },
        scheduledTasks := [{ id := some "task_001", prompt := "p",
                             interval := "1 day", searchInternet := false,
                             enabled := true, lastResponse := "",
                             lastSentTime := "" }] }
      true "task_999" "resp" "t0"
      = (false,
         { geminiApiKey := "k", recipientEmail := "r@s",
           smtpSettings := { server := some "s", port := some "587",
                             user := some "u", password := some "p",
                             useTls := some true },
           scheduledTasks := [{ id := some "task_001", prompt := "p",
                                interval := "1 day", searchInternet := false,
                                enabled := true, lastResponse := "",
                                lastSentTime := "" }] },
         false) := by
  exact update_task_last_run_details_not_found _ true "task_999" "resp" "t0"
    (by decide)

end EmailNews
